import Mathlib

/-!
Shallow embedding of the AUSF operator charm (`src/charm.py`) and proofs of
the specified properties of its reconciliation logic.

The charm's single handler `_on_ausf_pebble_ready` is a short sequence of
guard checks over ambient state (relation existence, container connectivity,
NRF-url availability, config-file presence) followed by a config-file push,
a pebble-layer submission, a replan, and a status assignment.  We model the
ambient state as an explicit record, and one reconciliation pass as a pure
function from that state to a record of the observable effects of the pass.
-/

namespace AusfOperator

/-- Python string truthiness for an optional string value: `None` and the
empty string are falsy, every other string is truthy.  Used to model
`if not self._nrf_requires.get_nrf_url()` in `_nrf_data_is_available`. -/
def pyTruthy : Option String → Bool
  | none => false
  | some s => s ≠ ""

/-- `BASE_CONFIG_PATH` constant from `charm.py`. -/
def BASE_CONFIG_PATH : String := "/etc/ausf"

/-- `CONFIG_FILE_NAME` constant from `charm.py`. -/
def CONFIG_FILE_NAME : String := "ausfcfg.conf"

/-- Full config path `f"{BASE_CONFIG_PATH}/{CONFIG_FILE_NAME}"` as used by
`_write_config_file` and `_config_file_is_written`. -/
def configFilePath : String := BASE_CONFIG_PATH ++ "/" ++ CONFIG_FILE_NAME

/-- Static identity of the charm: application name and model name, read by
`_ausf_hostname` from `self.model.app.name` and `self.model.name`. -/
structure CharmMeta where
  app_name : String
  model_name : String
  deriving Repr, DecidableEq

/-- `_ausf_hostname` from `charm.py`:
the string `f"{self.model.app.name}.{self.model.name}.svc.cluster.local"`. -/
def ausf_hostname (m : CharmMeta) : String :=
  m.app_name ++ "." ++ m.model_name ++ ".svc.cluster.local"

/-- Ambient state observed by one reconciliation pass:
whether the "nrf" relation exists (`_nrf_relation_is_created`), whether the
workload container can be connected to (`self._container.can_connect()`),
the value returned by `self._nrf_requires.get_nrf_url()` (`none` models the
library returning `None`), and whether the config file exists in the
container (`self._container.exists(...)`). -/
structure AmbientState where
  nrf_relation_created : Bool
  can_connect : Bool
  nrf_url : Option String
  config_file_exists : Bool
  deriving Repr, DecidableEq

/-- `_nrf_data_is_available` from `charm.py`: truthiness of the value
returned by `get_nrf_url()`. -/
def nrf_data_is_available (s : AmbientState) : Bool :=
  pyTruthy s.nrf_url

/-- `_config_file_is_written` from `charm.py`: existence of the config file
at its fixed path in the container. -/
def config_file_is_written (s : AmbientState) : Bool :=
  s.config_file_exists

/-- Unit status values assigned by the handler: `BlockedStatus`,
`WaitingStatus` (each with a message) and `ActiveStatus()`. -/
inductive UnitStatus
  | blocked (msg : String)
  | waiting (msg : String)
  | active
  deriving Repr, DecidableEq

/-- Modelled from the spec: the rendered config template
`src/templates/ausfcfg.conf.j2`, which is not part of the provided sources;
`_write_config_file` renders it with `nrf_url` and `ausf_url`.  The schema
follows the literal document of spec section 6 (and the unit test's expected
push content): fixed fields throughout, with `nrfUri` set to the supplied
dependency URL and `registerIPv4` set to the supplied self-hostname. -/
def renderConfig (nrf_url : String) (ausf_url : String) : String :=
  "configuration:\n  groupId: ausfGroup001\n  nrfUri: " ++ nrf_url ++
  "\n  plmnSupportList:\n  - mcc: \"208\"\n    mnc: \"93\"\n  sbi:\n" ++
  "    bindingIPv4: 0.0.0.0\n    port: 29509\n    registerIPv4: " ++ ausf_url ++
  "\n    scheme: http\n  serviceNameList:\n  - nausf-auth\n" ++
  "info:\n  description: AUSF initial local configuration\n  version: 1.0.0\n" ++
  "logger:\n  AMF:\n    ReportCaller: false\n    debugLevel: info\n" ++
  "  AUSF:\n    ReportCaller: false\n    debugLevel: info\n" ++
  "  Aper:\n    ReportCaller: false\n    debugLevel: info\n" ++
  "  CommonConsumerTest:\n    ReportCaller: false\n    debugLevel: info\n" ++
  "  FSM:\n    ReportCaller: false\n    debugLevel: info\n" ++
  "  MongoDBLibrary:\n    ReportCaller: false\n    debugLevel: info\n" ++
  "  N3IWF:\n    ReportCaller: false\n    debugLevel: info\n" ++
  "  NAS:\n    ReportCaller: false\n    debugLevel: info\n" ++
  "  NGAP:\n    ReportCaller: false\n    debugLevel: info\n" ++
  "  NRF:\n    ReportCaller: false\n    debugLevel: info\n" ++
  "  NamfComm:\n    ReportCaller: false\n    debugLevel: info\n" ++
  "  NamfEventExposure:\n    ReportCaller: false\n    debugLevel: info\n" ++
  "  NsmfPDUSession:\n    ReportCaller: false\n    debugLevel: info\n" ++
  "  NudrDataRepository:\n    ReportCaller: false\n    debugLevel: info\n" ++
  "  OpenApi:\n    ReportCaller: false\n    debugLevel: info\n" ++
  "  PCF:\n    ReportCaller: false\n    debugLevel: info\n" ++
  "  PFCP:\n    ReportCaller: false\n    debugLevel: info\n" ++
  "  PathUtil:\n    ReportCaller: false\n    debugLevel: info\n" ++
  "  SMF:\n    ReportCaller: false\n    debugLevel: info\n" ++
  "  UDM:\n    ReportCaller: false\n    debugLevel: info\n" ++
  "  UDR:\n    ReportCaller: false\n    debugLevel: info\n" ++
  "  WEBUI:\n    ReportCaller: false\n    debugLevel: info"

/-- One pebble service declaration, as built by `_pebble_layer`. -/
structure PebbleService where
  override : String
  startup : String
  command : String
  environment : List (String × String)
  deriving Repr, DecidableEq

/-- One pebble layer, as built by `_pebble_layer`. -/
structure PebbleLayer where
  summary : String
  description : String
  services : List (String × PebbleService)
  deriving Repr, DecidableEq

/-- `_environment_variables` from `charm.py`: fixed GRPC verbosity and log
flags, `POD_IP` set to the resolved pod address, and the static
`MANAGED_BY_CONFIG_POD` marker. -/
def environment_variables (pod_ip : String) : List (String × String) :=
  [("GRPC_GO_LOG_VERBOSITY_LEVEL", "99"),
   ("GRPC_GO_LOG_SEVERITY_LEVEL", "info"),
   ("GRPC_TRACE", "all"),
   ("GRPC_VERBOSITY", "debug"),
   ("POD_IP", pod_ip),
   ("MANAGED_BY_CONFIG_POD", "true")]

/-- `_pebble_layer` from `charm.py`: one service named "ausf" with override
"replace", startup "enabled", the fixed command line, and the environment
mapping built by `_environment_variables`. -/
def pebble_layer (pod_ip : String) : PebbleLayer :=
  { summary := "ausf layer"
    description := "pebble config layer for ausf"
    services :=
      [("ausf",
        { override := "replace"
          startup := "enabled"
          command := "/free5gc/ausf/ausf --ausfcfg " ++ BASE_CONFIG_PATH ++
            "/" ++ CONFIG_FILE_NAME
          environment := environment_variables pod_ip })] }

/-- Observable effects of one reconciliation pass:
the unit status assigned during the pass (`none` when the pass aborted
before any assignment on that path), the number of `event.defer()` calls,
the list of `container.push` calls as (path, content) pairs, the layer
submitted via `add_layer` (if any), whether `replan` was called, and whether
the pass was aborted by an uncaught exception. -/
structure Effects where
  status : Option UnitStatus
  defer_count : Nat
  pushes : List (String × String)
  layer_added : Option PebbleLayer
  replan_called : Bool
  aborted : Bool
  deriving Repr, DecidableEq

/-- One reconciliation pass: `_on_ausf_pebble_ready` from `charm.py`,
translated guard by guard.  `pod_ip_query` models the result of
`check_output(["unit-get", "private-address"])` inside `_pod_ip`: `some ip`
when the host-metadata query resolves the unit address to `ip`, `none` when
it raises.  The query is only evaluated when `_pebble_layer` is built, i.e.
after the first three guards pass; a failing query aborts the pass after the
config push (if any) but before `add_layer`, `replan` and the `ActiveStatus`
assignment. -/
def reconcile (m : CharmMeta) (s : AmbientState) (pod_ip_query : Option String) :
    Effects :=
  if ¬ s.nrf_relation_created then
    { status := some (.blocked "Waiting for NRF relation to be created")
      defer_count := 0, pushes := [], layer_added := none
      replan_called := false, aborted := false }
  else if ¬ s.can_connect then
    { status := some (.waiting "Waiting for container to be ready")
      defer_count := 1, pushes := [], layer_added := none
      replan_called := false, aborted := false }
  else if ¬ nrf_data_is_available s then
    { status := some (.waiting "Waiting for NRF data to be available")
      defer_count := 0, pushes := [], layer_added := none
      replan_called := false, aborted := false }
  else
    let pushes :=
      if ¬ config_file_is_written s then
        [(configFilePath,
          renderConfig (s.nrf_url.getD "") (ausf_hostname m))]
      else []
    match pod_ip_query with
    | none =>
      { status := none, defer_count := 0, pushes := pushes
        layer_added := none, replan_called := false, aborted := true }
    | some ip =>
      { status := some .active, defer_count := 0, pushes := pushes
        layer_added := some (pebble_layer ip), replan_called := true
        aborted := false }

/-- Splits a character list at newline characters.  Used only to state the
round-trip property of the rendered config. -/
def splitLines : List Char → List (List Char)
  | [] => [[]]
  | c :: cs =>
    let rest := splitLines cs
    if c = '\n' then [] :: rest
    else match rest with
      | [] => [[c]]
      | l :: ls => (c :: l) :: ls

/-- Drops leading space characters from a line. -/
def dropIndent : List Char → List Char
  | [] => []
  | c :: cs => if c = ' ' then dropIndent cs else c :: cs

/-- Whether the first list is an initial segment of the second. -/
def startsWithChars : List Char → List Char → Bool
  | [], _ => true
  | _ :: _, [] => false
  | p :: ps, c :: cs => p = c && startsWithChars ps cs

/-- Extracts the value of a flat field from a rendered YAML-like document:
the first line whose indentation-stripped form starts with the key followed
by a colon and a space yields the remainder of that line.  Used only to
state the round-trip property of the rendered config. -/
def yamlField (content : String) (key : String) : Option String :=
  ((splitLines content.data).findSome? fun line =>
    let t := dropIndent line
    if startsWithChars (key.data ++ [':', ' ']) t then
      some (t.drop (key.length + 2))
    else none).map fun cs => String.mk cs

end AusfOperator

namespace AusfOperator

/-- C1: for every reconciliation pass where the "nrf" relation does not
exist, the unit status is set to Blocked("Waiting for NRF relation to be
created") and the pass returns immediately: no deferral, no config push, no
layer submission, no replan, regardless of connectivity, dependency data,
config-file state or the pod-address query. -/
theorem c1_no_relation_blocks (m : CharmMeta) (s : AmbientState)
    (pod : Option String) (h : s.nrf_relation_created = false) :
    reconcile m s pod =
      { status := some (.blocked "Waiting for NRF relation to be created")
        defer_count := 0, pushes := [], layer_added := none
        replan_called := false, aborted := false } := by
  simp [reconcile, h]

/-- Witness for C1 at a concrete state with every other precondition
satisfied. -/
theorem c1_no_relation_blocks_witness :
    reconcile ⟨"ausf-operator", "whatever"⟩
      ⟨false, true, some "http://1.1.1.1", true⟩ (some "1.2.3.4") =
      { status := some (.blocked "Waiting for NRF relation to be created")
        defer_count := 0, pushes := [], layer_added := none
        replan_called := false, aborted := false } :=
  c1_no_relation_blocks ⟨"ausf-operator", "whatever"⟩
    ⟨false, true, some "http://1.1.1.1", true⟩ (some "1.2.3.4") rfl

/-- C2: for every reconciliation pass where the "nrf" relation exists but
the container cannot be connected to, the unit status is set to
Waiting("Waiting for container to be ready"), the triggering event is
deferred exactly once, and the pass returns with no config push, no layer
submission and no replan. -/
theorem c2_container_not_ready_waits_and_defers (m : CharmMeta)
    (s : AmbientState) (pod : Option String)
    (hrel : s.nrf_relation_created = true) (hconn : s.can_connect = false) :
    reconcile m s pod =
      { status := some (.waiting "Waiting for container to be ready")
        defer_count := 1, pushes := [], layer_added := none
        replan_called := false, aborted := false } := by
  simp [reconcile, hrel, hconn]

/-- Witness for C2 at a concrete state. -/
theorem c2_container_not_ready_waits_and_defers_witness :
    reconcile ⟨"ausf-operator", "whatever"⟩
      ⟨true, false, some "http://1.1.1.1", false⟩ (some "1.2.3.4") =
      { status := some (.waiting "Waiting for container to be ready")
        defer_count := 1, pushes := [], layer_added := none
        replan_called := false, aborted := false } :=
  c2_container_not_ready_waits_and_defers ⟨"ausf-operator", "whatever"⟩
    ⟨true, false, some "http://1.1.1.1", false⟩ (some "1.2.3.4") rfl rfl

/-- C3: for every reconciliation pass where the relation exists and the
container is connectable but the dependency client returns no URL, the unit
status is set to Waiting("Waiting for NRF data to be available") and the
pass returns with no config push, no layer submission, no replan and no
deferral. -/
theorem c3_no_nrf_data_waits (m : CharmMeta) (s : AmbientState)
    (pod : Option String)
    (hrel : s.nrf_relation_created = true) (hconn : s.can_connect = true)
    (hurl : s.nrf_url = none) :
    reconcile m s pod =
      { status := some (.waiting "Waiting for NRF data to be available")
        defer_count := 0, pushes := [], layer_added := none
        replan_called := false, aborted := false } := by
  simp [reconcile, nrf_data_is_available, pyTruthy, hrel, hconn, hurl]

/-- Witness for C3 at a concrete state. -/
theorem c3_no_nrf_data_waits_witness :
    reconcile ⟨"ausf-operator", "whatever"⟩
      ⟨true, true, none, false⟩ (some "1.2.3.4") =
      { status := some (.waiting "Waiting for NRF data to be available")
        defer_count := 0, pushes := [], layer_added := none
        replan_called := false, aborted := false } :=
  c3_no_nrf_data_waits ⟨"ausf-operator", "whatever"⟩
    ⟨true, true, none, false⟩ (some "1.2.3.4") rfl rfl rfl

/-- C4: idempotence on the config artifact: whenever the relation exists,
the container is connectable, the dependency URL is truthy and the config
file already exists, a pass (whose pod-address query returns an address)
performs no push at all — for any dependency URL, so in particular when it
differs from the one used at write time — yet still submits the pebble
layer, calls replan, and sets status Active. -/
theorem c4_existing_config_not_repushed (m : CharmMeta) (s : AmbientState)
    (ip : String)
    (hrel : s.nrf_relation_created = true) (hconn : s.can_connect = true)
    (hurl : nrf_data_is_available s = true)
    (hcfg : s.config_file_exists = true) :
    reconcile m s (some ip) =
      { status := some .active, defer_count := 0, pushes := []
        layer_added := some (pebble_layer ip), replan_called := true
        aborted := false } := by
  simp [reconcile, config_file_is_written, hrel, hconn, hurl, hcfg]

/-- Witness for C4 at a concrete state where the file exists while the
current dependency URL is arbitrary. -/
theorem c4_existing_config_not_repushed_witness :
    reconcile ⟨"ausf-operator", "whatever"⟩
      ⟨true, true, some "http://2.2.2.2", true⟩ (some "1.2.3.4") =
      { status := some .active, defer_count := 0, pushes := []
        layer_added := some (pebble_layer "1.2.3.4"), replan_called := true
        aborted := false } :=
  c4_existing_config_not_repushed ⟨"ausf-operator", "whatever"⟩
    ⟨true, true, some "http://2.2.2.2", true⟩ "1.2.3.4" rfl rfl rfl rfl

end AusfOperator

namespace AusfOperator

set_option maxRecDepth 8000 in
/-- C5: round-trip of the two dynamic values through rendering: for
dependency URL "http://1.1.1.1" and the self-hostname derived for app
"ausf-operator" in model "whatever", the rendered artifact equals the fixed
schema byte-for-byte, its nrfUri field equals the URL passed in and its
registerIPv4 field equals the self-hostname. -/
theorem c5_config_round_trip :
    renderConfig "http://1.1.1.1" (ausf_hostname ⟨"ausf-operator", "whatever"⟩) = "configuration:\n  groupId: ausfGroup001\n  nrfUri: http://1.1.1.1\n  plmnSupportList:\n  - mcc: \"208\"\n    mnc: \"93\"\n  sbi:\n    bindingIPv4: 0.0.0.0\n    port: 29509\n    registerIPv4: ausf-operator.whatever.svc.cluster.local\n    scheme: http\n  serviceNameList:\n  - nausf-auth\ninfo:\n  description: AUSF initial local configuration\n  version: 1.0.0\nlogger:\n  AMF:\n    ReportCaller: false\n    debugLevel: info\n  AUSF:\n    ReportCaller: false\n    debugLevel: info\n  Aper:\n    ReportCaller: false\n    debugLevel: info\n  CommonConsumerTest:\n    ReportCaller: false\n    debugLevel: info\n  FSM:\n    ReportCaller: false\n    debugLevel: info\n  MongoDBLibrary:\n    ReportCaller: false\n    debugLevel: info\n  N3IWF:\n    ReportCaller: false\n    debugLevel: info\n  NAS:\n    ReportCaller: false\n    debugLevel: info\n  NGAP:\n    ReportCaller: false\n    debugLevel: info\n  NRF:\n    ReportCaller: false\n    debugLevel: info\n  NamfComm:\n    ReportCaller: false\n    debugLevel: info\n  NamfEventExposure:\n    ReportCaller: false\n    debugLevel: info\n  NsmfPDUSession:\n    ReportCaller: false\n    debugLevel: info\n  NudrDataRepository:\n    ReportCaller: false\n    debugLevel: info\n  OpenApi:\n    ReportCaller: false\n    debugLevel: info\n  PCF:\n    ReportCaller: false\n    debugLevel: info\n  PFCP:\n    ReportCaller: false\n    debugLevel: info\n  PathUtil:\n    ReportCaller: false\n    debugLevel: info\n  SMF:\n    ReportCaller: false\n    debugLevel: info\n  UDM:\n    ReportCaller: false\n    debugLevel: info\n  UDR:\n    ReportCaller: false\n    debugLevel: info\n  WEBUI:\n    ReportCaller: false\n    debugLevel: info" ∧
    yamlField (renderConfig "http://1.1.1.1"
      (ausf_hostname ⟨"ausf-operator", "whatever"⟩)) "nrfUri" =
      some "http://1.1.1.1" ∧
    yamlField (renderConfig "http://1.1.1.1"
      (ausf_hostname ⟨"ausf-operator", "whatever"⟩)) "registerIPv4" =
      some "ausf-operator.whatever.svc.cluster.local" := by
  exact ⟨rfl, by decide, by decide⟩

/-- C6: once the first four checks pass (relation created, container
connectable, dependency URL truthy — with the pod-address query resolving),
the pass submits the pebble layer whose single service is declared with the
command line, startup "enabled" and the environment mapping, and calls
replan; this holds whatever the config-file state. -/
theorem c6_layer_submitted_and_replanned (m : CharmMeta) (s : AmbientState)
    (ip : String)
    (hrel : s.nrf_relation_created = true) (hconn : s.can_connect = true)
    (hurl : nrf_data_is_available s = true) :
    (reconcile m s (some ip)).layer_added = some (pebble_layer ip) ∧
    (reconcile m s (some ip)).replan_called = true ∧
    (pebble_layer ip).services =
      [("ausf",
        { override := "replace", startup := "enabled"
          command := "/free5gc/ausf/ausf --ausfcfg /etc/ausf/ausfcfg.conf"
          environment := environment_variables ip })] := by
  refine ⟨?_, ?_, rfl⟩ <;> simp [reconcile, hrel, hconn, hurl]

/-- Witness for C6 at a concrete state. -/
theorem c6_layer_submitted_and_replanned_witness :
    (reconcile ⟨"ausf-operator", "whatever"⟩
      ⟨true, true, some "http://1.1.1.1", false⟩ (some "1.2.3.4")).layer_added =
      some (pebble_layer "1.2.3.4") ∧
    (reconcile ⟨"ausf-operator", "whatever"⟩
      ⟨true, true, some "http://1.1.1.1", false⟩ (some "1.2.3.4")).replan_called =
      true ∧
    (pebble_layer "1.2.3.4").services =
      [("ausf",
        { override := "replace", startup := "enabled"
          command := "/free5gc/ausf/ausf --ausfcfg /etc/ausf/ausfcfg.conf"
          environment := environment_variables "1.2.3.4" })] :=
  c6_layer_submitted_and_replanned ⟨"ausf-operator", "whatever"⟩
    ⟨true, true, some "http://1.1.1.1", false⟩ "1.2.3.4" rfl rfl rfl

/-- C7: the service command line is exactly the binary path followed by the
config-file flag and path, and the environment mapping has exactly the four
GRPC verbosity and log keys, POD_IP bound to the resolved unit address, and
the static MANAGED_BY_CONFIG_POD marker; every entry except POD_IP is the
same for any two resolved addresses. -/
theorem c7_command_line_and_environment (ip ip' : String) :
    ((pebble_layer ip).services.map fun p => p.2.command) =
      ["/free5gc/ausf/ausf --ausfcfg /etc/ausf/ausfcfg.conf"] ∧
    ((environment_variables ip).map Prod.fst) =
      ["GRPC_GO_LOG_VERBOSITY_LEVEL", "GRPC_GO_LOG_SEVERITY_LEVEL",
       "GRPC_TRACE", "GRPC_VERBOSITY", "POD_IP", "MANAGED_BY_CONFIG_POD"] ∧
    (environment_variables ip).lookup "POD_IP" = some ip ∧
    ((environment_variables ip).filter fun p => p.1 != "POD_IP") =
      ((environment_variables ip').filter fun p => p.1 != "POD_IP") ∧
    ((environment_variables ip).filter fun p => p.1 != "POD_IP") =
      [("GRPC_GO_LOG_VERBOSITY_LEVEL", "99"),
       ("GRPC_GO_LOG_SEVERITY_LEVEL", "info"),
       ("GRPC_TRACE", "all"),
       ("GRPC_VERBOSITY", "debug"),
       ("MANAGED_BY_CONFIG_POD", "true")] :=
  ⟨rfl, rfl, rfl, rfl, rfl⟩

end AusfOperator

namespace AusfOperator

/-- C8: determinism of status: for any two passes whose pod-address queries
succeed and that observe the same four ambient observables (relation
existence, connectivity, dependency-data truthiness, config-file existence),
the resulting status is the same — independent of charm identity, the
particular URL value and the particular resolved address — and that status
is always one of Blocked(relation), Waiting(container), Waiting(dependency)
or Active. -/
theorem c8_status_deterministic (m m' : CharmMeta) (s s' : AmbientState)
    (ip ip' : String)
    (h1 : s.nrf_relation_created = s'.nrf_relation_created)
    (h2 : s.can_connect = s'.can_connect)
    (h3 : nrf_data_is_available s = nrf_data_is_available s')
    (h4 : s.config_file_exists = s'.config_file_exists) :
    (reconcile m s (some ip)).status = (reconcile m' s' (some ip')).status ∧
    ((reconcile m s (some ip)).status =
        some (.blocked "Waiting for NRF relation to be created") ∨
      (reconcile m s (some ip)).status =
        some (.waiting "Waiting for container to be ready") ∨
      (reconcile m s (some ip)).status =
        some (.waiting "Waiting for NRF data to be available") ∨
      (reconcile m s (some ip)).status = some .active) := by
  cases hr : s.nrf_relation_created <;> cases hc : s.can_connect <;>
    cases hd : nrf_data_is_available s <;>
      simp_all [reconcile, config_file_is_written]

/-- Witness for C8: two passes differing in charm identity, URL value and
resolved address but agreeing on the four ambient observables. -/
theorem c8_status_deterministic_witness :
    (reconcile ⟨"ausf-operator", "whatever"⟩
      ⟨true, true, some "http://1.1.1.1", true⟩ (some "1.2.3.4")).status =
      (reconcile ⟨"other-app", "other-model"⟩
        ⟨true, true, some "http://2.2.2.2", true⟩ (some "5.6.7.8")).status ∧
    ((reconcile ⟨"ausf-operator", "whatever"⟩
        ⟨true, true, some "http://1.1.1.1", true⟩ (some "1.2.3.4")).status =
        some (.blocked "Waiting for NRF relation to be created") ∨
      (reconcile ⟨"ausf-operator", "whatever"⟩
        ⟨true, true, some "http://1.1.1.1", true⟩ (some "1.2.3.4")).status =
        some (.waiting "Waiting for container to be ready") ∨
      (reconcile ⟨"ausf-operator", "whatever"⟩
        ⟨true, true, some "http://1.1.1.1", true⟩ (some "1.2.3.4")).status =
        some (.waiting "Waiting for NRF data to be available") ∨
      (reconcile ⟨"ausf-operator", "whatever"⟩
        ⟨true, true, some "http://1.1.1.1", true⟩ (some "1.2.3.4")).status =
        some .active) :=
  c8_status_deterministic ⟨"ausf-operator", "whatever"⟩
    ⟨"other-app", "other-model"⟩
    ⟨true, true, some "http://1.1.1.1", true⟩
    ⟨true, true, some "http://2.2.2.2", true⟩
    "1.2.3.4" "5.6.7.8" rfl rfl rfl rfl

/-- C9: if the first three checks pass and the host-metadata query fails,
the pass aborts: no layer is submitted, replan is not called, no status is
assigned (in particular not Active), and the pass is marked aborted; a
config push performed earlier in the same pass (exactly when the file was
absent) is retained. -/
theorem c9_pod_ip_failure_aborts (m : CharmMeta) (s : AmbientState)
    (hrel : s.nrf_relation_created = true) (hconn : s.can_connect = true)
    (hurl : nrf_data_is_available s = true) :
    reconcile m s none =
      { status := none, defer_count := 0
        pushes :=
          if s.config_file_exists then []
          else [(configFilePath,
            renderConfig (s.nrf_url.getD "") (ausf_hostname m))]
        layer_added := none, replan_called := false, aborted := true } := by
  cases hcfg : s.config_file_exists <;>
    simp_all [reconcile, config_file_is_written]

/-- Witness for C9 at a concrete state with the config file absent. -/
theorem c9_pod_ip_failure_aborts_witness :
    reconcile ⟨"ausf-operator", "whatever"⟩
      ⟨true, true, some "http://1.1.1.1", false⟩ none =
      { status := none, defer_count := 0
        pushes :=
          if (false : Bool) then []
          else [(configFilePath,
            renderConfig ((some "http://1.1.1.1").getD "")
              (ausf_hostname ⟨"ausf-operator", "whatever"⟩))]
        layer_added := none, replan_called := false, aborted := true } :=
  c9_pod_ip_failure_aborts ⟨"ausf-operator", "whatever"⟩
    ⟨true, true, some "http://1.1.1.1", false⟩ rfl rfl rfl

/-- C10: a published but empty-string URL is treated exactly like an absent
one: whenever the relation exists and the container is connectable but the
dependency client returns the empty string, the pass ends with status
Waiting("Waiting for NRF data to be available"), no push, no layer
submission, no replan and no deferral. -/
theorem c10_empty_url_treated_as_absent (m : CharmMeta) (s : AmbientState)
    (pod : Option String)
    (hrel : s.nrf_relation_created = true) (hconn : s.can_connect = true)
    (hurl : s.nrf_url = some "") :
    reconcile m s pod =
      { status := some (.waiting "Waiting for NRF data to be available")
        defer_count := 0, pushes := [], layer_added := none
        replan_called := false, aborted := false } := by
  simp [reconcile, nrf_data_is_available, pyTruthy, hrel, hconn, hurl]

/-- Witness for C10 at a concrete state publishing an empty URL. -/
theorem c10_empty_url_treated_as_absent_witness :
    reconcile ⟨"ausf-operator", "whatever"⟩
      ⟨true, true, some "", false⟩ (some "1.2.3.4") =
      { status := some (.waiting "Waiting for NRF data to be available")
        defer_count := 0, pushes := [], layer_added := none
        replan_called := false, aborted := false } :=
  c10_empty_url_treated_as_absent ⟨"ausf-operator", "whatever"⟩
    ⟨true, true, some "", false⟩ (some "1.2.3.4") rfl rfl rfl

end AusfOperator
